import Mathlib

/-!
Shallow embedding of `Source/WebKit/Shared/mac/MediaFormatReader/FormatReader.cpp`.

The FormatReader owns four fields guarded by `m_parseTracksLock`:
`m_byteSource`, `m_duration`, `m_parseTracksStatus` and `m_trackReaders`.
All mutation happens on the main (coordination) thread while holding the lock,
and the two query entry points (`copyProperty`, `copyTrackArray`) take the same
lock and wait on `m_parseTracksCondition` until `m_parseTracksStatus` has a
value.  We therefore model the system as a sequential state machine whose
events are the lock-protected critical sections, executed atomically in some
interleaving order; queries are pure functions of the state that return `none`
while they would still be blocked on the condition.

Machine values are modelled as follows: `MediaTime` becomes `Option Int`
(`none` = `MediaTime::invalidTime()`), `OSStatus` becomes `Int`, the abstract
byte source handle and media sample handles become `Nat`, and WebKit debug
assertions (`ASSERT`) become `Except AssertViolation` results.
-/

namespace FormatReaderModel

/-- OSStatus success code. -/
def noErr : Int := 0

/-- Abstract MediaToolbox error constant; its numeric value is not given by the
source, so we pick a fixed non-zero value, distinct from the other codes. -/
def kMTPluginFormatReaderError_AllocationFailure : Int := -16661

/-- Abstract MediaToolbox error constant for a failed parse; fixed non-zero
value, distinct from the other codes. -/
def kMTPluginFormatReaderError_ParsingFailure : Int := -16662

/-- Abstract CoreMedia error constant returned by `copyProperty` when no value
is available; fixed non-zero value, distinct from the other codes. -/
def kCMBaseObjectError_ValueNotAvailable : Int := -12783

/-- Kind of a discovered track, determined by which of the three lists of the
initialization segment it came from. -/
inductive TrackKind where
  | video
  | audio
  | text
deriving DecidableEq, Repr

/-- One track descriptor of an initialization segment, as consumed by
`FormatReader::didParseTracks`.  `createSucceeds` records whether the
corresponding `TrackReader::create` call returns a non-null reader (the
source skips the track when creation fails). -/
structure TrackInfo where
  trackID : Nat
  createSucceeds : Bool
deriving DecidableEq, Repr

/-- The collaborator initialization segment
(`SourceBufferPrivateClient::InitializationSegment`): a duration plus ordered
lists of video, audio and text track descriptors. -/
structure InitializationSegment where
  duration : Option Int
  videoTracks : List TrackInfo
  audioTracks : List TrackInfo
  textTracks : List TrackInfo
deriving DecidableEq, Repr

/-- Modelled from the spec: the `TrackReader` class itself is not under the
source tree (only `FormatReader` is); per the spec a channel holds a stable
`trackId`, a kind, an `enabled` flag defaulting to false, an append-only
sample sequence (sample handle plus originating byte-source reference) and an
idempotent "finished" marking. -/
structure TrackReader where
  trackID : Nat
  kind : TrackKind
  enabled : Bool
  samples : List (Nat × Option Nat)
  finished : Bool
deriving DecidableEq, Repr

/-- Modelled from the spec: `TrackReader::create` builds a disabled, empty
channel from a descriptor. -/
def mkTrackReader (kind : TrackKind) (t : TrackInfo) : TrackReader :=
  { trackID := t.trackID, kind := kind, enabled := false, samples := [], finished := false }

/-- The four lock-guarded fields of `FormatReader`. -/
structure FormatReaderState where
  byteSource : Option Nat
  duration : Option Int
  parseTracksStatus : Option Int
  trackReaders : List TrackReader
deriving DecidableEq, Repr

/-- State of a freshly constructed `FormatReader` (the constructor sets
`m_duration` to `MediaTime::invalidTime()`; the other fields are empty). -/
def initialState : FormatReaderState :=
  { byteSource := none, duration := none, parseTracksStatus := none, trackReaders := [] }

/-- Debug-assertion violations (`ASSERT`) of the source, as failure values. -/
inductive AssertViolation where
  | calledOnMainThread
  | statusAlreadySet
  | durationAlreadySet
  | tracksNonEmpty
  | statusUnset
deriving DecidableEq, Repr

/-- Sets `enabled := true` on the reader at index `i`, as
`m_trackReaders[i]->setEnabled(true)` does; out-of-range indices leave the
list unchanged (the source only indexes in range). -/
def setEnabledAt : List TrackReader → Nat → List TrackReader
  | [], _ => []
  | tr :: rest, 0 => { tr with enabled := true } :: rest
  | tr :: rest, n + 1 => tr :: setEnabledAt rest n

/-- Modelled from the spec: `TrackReader::addSample` appends the sample (with
the active byte-source reference) to the channel at index `i`, preserving
arrival order. -/
def addSampleAt : List TrackReader → Nat → Nat → Option Nat → List TrackReader
  | [], _, _, _ => []
  | tr :: rest, 0, s, bs => { tr with samples := tr.samples ++ [(s, bs)] } :: rest
  | tr :: rest, n + 1, s, bs => tr :: addSampleAt rest n s bs

/-- The per-iteration enabling check of the loops in
`FormatReader::didParseTracks`: when an expected length and index are given
(`some (len, i)`), the source runs `if (m_trackReaders.size() == len)
m_trackReaders[i]->setEnabled(true)` after the conditional append. -/
def enableStep (en : Option (Nat × Nat)) (l : List TrackReader) : List TrackReader :=
  match en with
  | some p => if l.length = p.1 then setEnabledAt l p.2 else l
  | none => l

/-- One of the three track loops of `FormatReader::didParseTracks`: for each
descriptor, append a reader when creation succeeds, then run the enabling
check (present for the video and audio loops, absent for text). -/
def processTracks (en : Option (Nat × Nat)) (kind : TrackKind) (acc : List TrackReader) :
    List TrackInfo → List TrackReader
  | [] => acc
  | t :: rest =>
      processTracks en kind
        (enableStep en (if t.createSucceeds then acc ++ [mkTrackReader kind t] else acc)) rest

/-- The full track-building part of `FormatReader::didParseTracks`: the video
loop enables index 0 when the size reaches 1, the audio loop enables index
`videoTracks.size()` when the size reaches `videoTracks.size() + 1`, and the
text loop never enables. -/
def buildTrackReaders (segment : InitializationSegment) : List TrackReader :=
  let afterVideo := processTracks (some (1, 0)) TrackKind.video [] segment.videoTracks
  let afterAudio :=
    processTracks (some (segment.videoTracks.length + 1, segment.videoTracks.length))
      TrackKind.audio afterVideo segment.audioTracks
  processTracks none TrackKind.text afterAudio segment.textTracks

/-- `FormatReader::didParseTracks`: asserts that the status is unset, the
duration invalid and the reader list empty, then — in one critical section —
records the outcome (`ParsingFailure` for a non-zero collaborator error code,
else `noErr`), stores the segment duration, builds the track readers and
notifies all waiters. -/
def didParseTracks (st : FormatReaderState) (segment : InitializationSegment)
    (errorCode : Nat) : Except AssertViolation FormatReaderState :=
  if st.parseTracksStatus ≠ none then Except.error AssertViolation.statusAlreadySet
  else if st.duration ≠ none then Except.error AssertViolation.durationAlreadySet
  else if st.trackReaders ≠ [] then Except.error AssertViolation.tracksNonEmpty
  else Except.ok { st with
    parseTracksStatus :=
      some (if errorCode ≠ 0 then kMTPluginFormatReaderError_ParsingFailure else noErr)
    duration := segment.duration
    trackReaders := buildTrackReaders segment }

/-- `Vector::findMatching`: index of the first element satisfying the
predicate, or `none` (`notFound`). -/
def findMatching (p : TrackReader → Bool) : List TrackReader → Option Nat
  | [] => none
  | tr :: rest => if p tr then some 0 else (findMatching p rest).map (fun n => n + 1)

/-- `FormatReader::didProvideMediaData`: under the lock, find the first reader
whose `trackID` matches; if found, append the sample together with the current
byte source; otherwise do nothing.  The call never fails. -/
def didProvideMediaData (st : FormatReaderState) (sample : Nat) (trackID : Nat) :
    FormatReaderState :=
  match findMatching (fun tr => tr.trackID == trackID) st.trackReaders with
  | some i => { st with trackReaders := addSampleAt st.trackReaders i sample st.byteSource }
  | none => st

/-- Modelled from the spec: `TrackReader::finishParsing` marks the channel as
will-not-receive-more-samples; the marking is idempotent. -/
def finishOne (tr : TrackReader) : TrackReader :=
  { tr with finished := true }

/-- `FormatReader::finishParsing`: asserts that the status has a value, then
marks every track reader finished.  The remaining statements only clear the
collaborator parser callbacks and reset the parser, touching no session
field. -/
def finishParsing (st : FormatReaderState) : Except AssertViolation FormatReaderState :=
  if st.parseTracksStatus = none then Except.error AssertViolation.statusUnset
  else Except.ok { st with trackReaders := st.trackReaders.map finishOne }

/-- `FormatReader::parseByteSource` (runs on the coordination thread): when
`SourceBufferParser::create` fails, it records an allocation-failure status
and returns at once, resetting nothing; otherwise, under the lock, it stores
the new byte source, clears the status, invalidates the duration and clears
the reader list, then registers the parser callbacks and dispatches the
byte-consumption work. -/
def parseByteSource (st : FormatReaderState) (byteSource : Nat)
    (parserAllocSucceeds : Bool) : FormatReaderState :=
  if parserAllocSucceeds then
    { st with
        byteSource := some byteSource
        parseTracksStatus := none
        duration := none
        trackReaders := [] }
  else
    { st with parseTracksStatus := some kMTPluginFormatReaderError_AllocationFailure }

/-- `FormatReader::startOnMainThread`: asserts it is NOT running on the main
(coordination) thread, then re-dispatches `parseByteSource` onto the main
thread via `callOnMainThread` before touching any state.  We collapse the
dispatch and the dispatched mutation into one step. -/
def startOnMainThread (st : FormatReaderState) (isMainThread : Bool) (byteSource : Nat)
    (parserAllocSucceeds : Bool) : Except AssertViolation FormatReaderState :=
  if isMainThread then Except.error AssertViolation.calledOnMainThread
  else Except.ok (parseByteSource st byteSource parserAllocSucceeds)

/-- Modelled from the spec: the empty initialization segment `{ }` that the
error callback forwards to `didParseTracks` (the default state of
`InitializationSegment` lives outside the source tree); the spec keeps the
duration "invalid until parsing completes successfully" and the segment
carries no tracks. -/
def emptySegment : InitializationSegment :=
  { duration := none, videoTracks := [], audioTracks := [], textTracks := [] }

/-- Property keys passed to `copyProperty`: the MediaToolbox Duration key or
any other key. -/
inductive PropertyKey where
  | duration
  | other (raw : Nat)
deriving DecidableEq, Repr

/-- Modelled from the spec: `CMTimeCopyAsDictionary` at the OS boundary —
per the query contract ("returns the stored duration if available, else a
value-not-available error") it yields a dictionary exactly when the time is
valid; we represent the dictionary by the duration value itself. -/
def cmTimeCopyAsDictionary (t : Option Int) : Option Int := t

/-- `FormatReader::copyProperty` (the queryDuration entry point): takes the
lock and waits on the condition until the status has a value (result `none`
models a still-blocked call).  Once woken it returns the duration dictionary
with `noErr` when the key is the Duration key and the dictionary copy is
non-null, and `kCMBaseObjectError_ValueNotAvailable` otherwise. -/
def copyProperty (st : FormatReaderState) (key : PropertyKey) : Option (Except Int Int) :=
  match st.parseTracksStatus with
  | none => none
  | some _ =>
      some (match key, cmTimeCopyAsDictionary st.duration with
        | PropertyKey.duration, some d => Except.ok d
        | _, _ => Except.error kCMBaseObjectError_ValueNotAvailable)

/-- `FormatReader::copyTrackArray` (the queryTracks entry point): takes the
lock and waits until the status has a value (`none` models a still-blocked
call); returns the failure status when it is not `noErr`, else the array of
per-reader wrapper references in list order.  A wrapper reference is modelled
by the trackID of its channel, unique per generation. -/
def copyTrackArray (st : FormatReaderState) : Option (Except Int (List Nat)) :=
  match st.parseTracksStatus with
  | none => none
  | some s =>
      some (if s ≠ noErr then Except.error s
        else Except.ok (st.trackReaders.map (fun tr => tr.trackID)))

/-- Events of the session: each one is one critical section executed on the
coordination thread (`startParse` stands for the dispatched body
`parseByteSource`; `parseInit` and `parseError` are the two collaborator
callbacks, which both land in `didParseTracks`; `finishParse` is scheduled by
the background worker after the byte-consumption call returns). -/
inductive Event where
  | startParse (byteSource : Nat) (parserAllocSucceeds : Bool)
  | parseInit (segment : InitializationSegment)
  | parseError (errorCode : Nat)
  | provideMediaData (sample : Nat) (trackID : Nat)
  | finishParse
deriving DecidableEq, Repr

/-- Whether an event is a `startParse` (begins a new generation). -/
def Event.isStartParse : Event → Bool
  | Event.startParse _ _ => true
  | _ => false

/-- Whether an event is a media-sample delivery. -/
def Event.isProvideData : Event → Bool
  | Event.provideMediaData _ _ => true
  | _ => false

/-- One atomic critical section. -/
def step (st : FormatReaderState) : Event → Except AssertViolation FormatReaderState
  | Event.startParse bs allocOK => Except.ok (parseByteSource st bs allocOK)
  | Event.parseInit seg => didParseTracks st seg 0
  | Event.parseError code => didParseTracks st emptySegment code
  | Event.provideMediaData s tid => Except.ok (didProvideMediaData st s tid)
  | Event.finishParse => finishParsing st

/-- Runs a list of events in order, stopping at the first assertion
violation. -/
def run (st : FormatReaderState) : List Event → Except AssertViolation FormatReaderState
  | [] => Except.ok st
  | e :: es =>
      match step st e with
      | Except.ok st2 => run st2 es
      | Except.error a => Except.error a

end FormatReaderModel

namespace FormatReaderModel

/-! ### Helper lemmas about the track-building loops -/

theorem setEnabledAt_map_trackID (l : List TrackReader) (i : Nat) :
    (setEnabledAt l i).map (fun tr => tr.trackID) = l.map (fun tr => tr.trackID) := by
  induction l generalizing i with
  | nil => rfl
  | cons tr rest ih =>
      cases i with
      | zero => rfl
      | succ n => simp [setEnabledAt, ih]

theorem addSampleAt_map_trackID (l : List TrackReader) (i s : Nat) (bs : Option Nat) :
    (addSampleAt l i s bs).map (fun tr => tr.trackID) = l.map (fun tr => tr.trackID) := by
  induction l generalizing i with
  | nil => rfl
  | cons tr rest ih =>
      cases i with
      | zero => rfl
      | succ n => simp [addSampleAt, ih]

theorem enableStep_map_trackID (en : Option (Nat × Nat)) (l : List TrackReader) :
    (enableStep en l).map (fun tr => tr.trackID) = l.map (fun tr => tr.trackID) := by
  cases en with
  | none => rfl
  | some p =>
      simp only [enableStep]
      split
      · exact setEnabledAt_map_trackID l p.2
      · rfl

theorem processTracks_map_trackID (en : Option (Nat × Nat)) (kind : TrackKind)
    (ts : List TrackInfo) :
    ∀ acc : List TrackReader,
      (processTracks en kind acc ts).map (fun tr => tr.trackID)
        = acc.map (fun tr => tr.trackID)
          ++ (ts.filter (fun t => t.createSucceeds)).map (fun t => t.trackID) := by
  induction ts with
  | nil => intro acc; simp [processTracks]
  | cons t rest ih =>
      intro acc
      simp only [processTracks, ih, enableStep_map_trackID, List.filter_cons]
      by_cases hc : t.createSucceeds
      · simp [hc, mkTrackReader]
      · simp [hc]

theorem filter_all_eq {α : Type} (p : α → Bool) (l : List α) (h : l.all p = true) :
    l.filter p = l := by
  induction l with
  | nil => rfl
  | cons a rest ih =>
      simp only [List.all_cons, Bool.and_eq_true] at h
      simp [List.filter_cons, h.1, ih h.2]

theorem setEnabledAt_append_length (acc : List TrackReader) (x : TrackReader) :
    setEnabledAt (acc ++ [x]) acc.length = acc ++ [{ x with enabled := true }] := by
  induction acc with
  | nil => rfl
  | cons tr rest ih => simp [setEnabledAt, ih]

/-- The reader the enabling check turns on: a fresh reader with
`enabled := true`. -/
def mkEnabledReader (kind : TrackKind) (t : TrackInfo) : TrackReader :=
  { trackID := t.trackID, kind := kind, enabled := true, samples := [], finished := false }

theorem setEnabledAt_append_mk (acc : List TrackReader) (kind : TrackKind) (t : TrackInfo) :
    setEnabledAt (acc ++ [mkTrackReader kind t]) acc.length
      = acc ++ [mkEnabledReader kind t] := by
  induction acc with
  | nil => rfl
  | cons tr rest ih => simp [setEnabledAt, ih]

theorem processTracks_no_enable (kind : TrackKind) (len i : Nat) (ts : List TrackInfo) :
    ∀ acc : List TrackReader, ts.all (fun t => t.createSucceeds) = true →
      len ≤ acc.length →
      processTracks (some (len, i)) kind acc ts = acc ++ ts.map (mkTrackReader kind) := by
  induction ts with
  | nil => intro acc _ _; simp [processTracks]
  | cons t rest ih =>
      intro acc hall hlen
      simp only [List.all_cons, Bool.and_eq_true] at hall
      have hne : ¬ (acc ++ [mkTrackReader kind t]).length = len := by
        simp only [List.length_append, List.length_cons, List.length_nil]
        omega
      simp only [processTracks, hall.1, if_pos, enableStep, hne, if_neg, not_false_iff]
      rw [ih (acc ++ [mkTrackReader kind t]) hall.2 (by simp; omega)]
      simp

theorem processTracks_none_all (kind : TrackKind) (ts : List TrackInfo) :
    ∀ acc : List TrackReader, ts.all (fun t => t.createSucceeds) = true →
      processTracks none kind acc ts = acc ++ ts.map (mkTrackReader kind) := by
  induction ts with
  | nil => intro acc _; simp [processTracks]
  | cons t rest ih =>
      intro acc hall
      simp only [List.all_cons, Bool.and_eq_true] at hall
      simp only [processTracks, hall.1, if_pos, enableStep]
      rw [ih (acc ++ [mkTrackReader kind t]) hall.2]
      simp

/-- Result of one enabling loop when every creation succeeds and the loop
fires on its first element: the first reader enabled, the rest disabled. -/
def firstEnabled (kind : TrackKind) : List TrackInfo → List TrackReader
  | [] => []
  | t :: rest => mkEnabledReader kind t :: rest.map (mkTrackReader kind)

theorem length_firstEnabled (kind : TrackKind) (ts : List TrackInfo) :
    (firstEnabled kind ts).length = ts.length := by
  cases ts with
  | nil => rfl
  | cons t rest => simp [firstEnabled]

theorem processTracks_first_enable (kind : TrackKind) (ts : List TrackInfo)
    (acc : List TrackReader) (hall : ts.all (fun t => t.createSucceeds) = true) :
    processTracks (some (acc.length + 1, acc.length)) kind acc ts
      = acc ++ firstEnabled kind ts := by
  cases ts with
  | nil => simp [processTracks, firstEnabled]
  | cons t rest =>
      simp only [List.all_cons, Bool.and_eq_true] at hall
      have hfire : (acc ++ [mkTrackReader kind t]).length = acc.length + 1 := by simp
      simp only [processTracks, hall.1, if_true, enableStep, hfire, if_pos,
        setEnabledAt_append_mk]
      rw [processTracks_no_enable kind (acc.length + 1) acc.length rest
        (acc ++ [mkEnabledReader kind t]) hall.2 (by simp)]
      simp [firstEnabled]

theorem buildTrackReaders_all_ok (segment : InitializationSegment)
    (hv : segment.videoTracks.all (fun t => t.createSucceeds) = true)
    (ha : segment.audioTracks.all (fun t => t.createSucceeds) = true)
    (ht : segment.textTracks.all (fun t => t.createSucceeds) = true) :
    buildTrackReaders segment
      = firstEnabled TrackKind.video segment.videoTracks
        ++ firstEnabled TrackKind.audio segment.audioTracks
        ++ segment.textTracks.map (mkTrackReader TrackKind.text) := by
  have h1 : processTracks (some (1, 0)) TrackKind.video [] segment.videoTracks
      = firstEnabled TrackKind.video segment.videoTracks := by
    have := processTracks_first_enable TrackKind.video segment.videoTracks [] hv
    simpa using this
  have hlen : (firstEnabled TrackKind.video segment.videoTracks).length
      = segment.videoTracks.length := length_firstEnabled _ _
  have h2 : processTracks (some (segment.videoTracks.length + 1, segment.videoTracks.length))
      TrackKind.audio (firstEnabled TrackKind.video segment.videoTracks) segment.audioTracks
      = firstEnabled TrackKind.video segment.videoTracks
        ++ firstEnabled TrackKind.audio segment.audioTracks := by
    have := processTracks_first_enable TrackKind.audio segment.audioTracks
      (firstEnabled TrackKind.video segment.videoTracks) ha
    rw [hlen] at this
    exact this
  simp only [buildTrackReaders]
  rw [h1, h2, processTracks_none_all TrackKind.text segment.textTracks _ ht]

end FormatReaderModel

namespace FormatReaderModel

/-! ### Helper lemmas about the event semantics -/

theorem findMatching_eq_none (p : TrackReader → Bool) (l : List TrackReader)
    (h : ∀ tr ∈ l, p tr = false) : findMatching p l = none := by
  induction l with
  | nil => rfl
  | cons tr rest ih =>
      simp only [findMatching, h tr (List.mem_cons_self tr rest)]
      rw [ih (fun x hx => h x (List.mem_cons_of_mem tr hx))]
      rfl

theorem didProvideMediaData_of_empty (st : FormatReaderState) (s tid : Nat)
    (h : st.trackReaders = []) : didProvideMediaData st s tid = st := by
  unfold didProvideMediaData
  rw [h]
  rfl

theorem didProvideMediaData_parseTracksStatus (st : FormatReaderState) (s tid : Nat) :
    (didProvideMediaData st s tid).parseTracksStatus = st.parseTracksStatus := by
  unfold didProvideMediaData
  cases findMatching (fun tr => tr.trackID == tid) st.trackReaders <;> rfl

theorem didProvideMediaData_duration (st : FormatReaderState) (s tid : Nat) :
    (didProvideMediaData st s tid).duration = st.duration := by
  unfold didProvideMediaData
  cases findMatching (fun tr => tr.trackID == tid) st.trackReaders <;> rfl

theorem map_trackID_map_finishOne (l : List TrackReader) :
    (l.map finishOne).map (fun tr => tr.trackID) = l.map (fun tr => tr.trackID) := by
  induction l with
  | nil => rfl
  | cons tr rest ih => simp [finishOne, ih]

theorem didProvideMediaData_map_trackID (st : FormatReaderState) (s tid : Nat) :
    (didProvideMediaData st s tid).trackReaders.map (fun tr => tr.trackID)
      = st.trackReaders.map (fun tr => tr.trackID) := by
  unfold didProvideMediaData
  cases findMatching (fun tr => tr.trackID == tid) st.trackReaders with
  | none => rfl
  | some i => exact addSampleAt_map_trackID st.trackReaders i s st.byteSource

/-- A step other than `startParse`, executed from a concluded state without
violating an assertion, preserves the outcome, the duration and the identity
and order of the track channels. -/
theorem step_preserves_concluded (e : Event) (st st2 : FormatReaderState)
    (he : e.isStartParse = false)
    (hs : st.parseTracksStatus.isSome = true)
    (hr : step st e = Except.ok st2) :
    st2.parseTracksStatus = st.parseTracksStatus
      ∧ st2.duration = st.duration
      ∧ st2.trackReaders.map (fun tr => tr.trackID)
          = st.trackReaders.map (fun tr => tr.trackID) := by
  rcases Option.isSome_iff_exists.mp hs with ⟨c, hc⟩
  cases e with
  | startParse bs a => simp [Event.isStartParse] at he
  | parseInit seg =>
      simp only [step, didParseTracks, hc] at hr
      simp at hr
  | parseError code =>
      simp only [step, didParseTracks, hc] at hr
      simp at hr
  | provideMediaData s tid =>
      simp only [step, Except.ok.injEq] at hr
      subst hr
      exact ⟨didProvideMediaData_parseTracksStatus st s tid,
        didProvideMediaData_duration st s tid,
        didProvideMediaData_map_trackID st s tid⟩
  | finishParse =>
      simp only [step, finishParsing, hc] at hr
      simp only [reduceCtorEq, reduceIte, Except.ok.injEq] at hr
      subst hr
      exact ⟨hc.symm, rfl, map_trackID_map_finishOne st.trackReaders⟩

/-- Running any event sequence that starts no new generation from a concluded
state, without violating an assertion, preserves the outcome, the duration
and the identity and order of the track channels. -/
theorem run_preserves_concluded (evs : List Event) :
    ∀ st st2 : FormatReaderState,
      evs.all (fun e => !e.isStartParse) = true →
      st.parseTracksStatus.isSome = true →
      run st evs = Except.ok st2 →
      st2.parseTracksStatus = st.parseTracksStatus
        ∧ st2.duration = st.duration
        ∧ st2.trackReaders.map (fun tr => tr.trackID)
            = st.trackReaders.map (fun tr => tr.trackID) := by
  induction evs with
  | nil =>
      intro st st2 _ _ hr
      simp only [run, Except.ok.injEq] at hr
      subst hr
      exact ⟨rfl, rfl, rfl⟩
  | cons e rest ih =>
      intro st st2 hall hs hr
      simp only [List.all_cons, Bool.and_eq_true, Bool.not_eq_true'] at hall
      cases hstep : step st e with
      | error a => simp [run, hstep] at hr
      | ok st1 =>
          simp only [run, hstep] at hr
          have h1 := step_preserves_concluded e st st1 hall.1 hs hstep
          have hs1 : st1.parseTracksStatus.isSome = true := by
            rw [h1.1]
            exact hs
          have h2 := ih st1 st2 (by simp [List.all_eq_true] at hall ⊢; exact hall.2) hs1 hr
          exact ⟨h2.1.trans h1.1, h2.2.1.trans h1.2.1, h2.2.2.trans h1.2.2⟩

/-- Running media-sample deliveries only, from a state with no track channels,
changes nothing at all. -/
theorem run_provide_only_of_empty (evs : List Event) :
    ∀ st : FormatReaderState,
      evs.all Event.isProvideData = true →
      st.trackReaders = [] →
      run st evs = Except.ok st := by
  induction evs with
  | nil => intro st _ _; rfl
  | cons e rest ih =>
      intro st hall hempty
      simp only [List.all_cons, Bool.and_eq_true] at hall
      cases e with
      | startParse bs a => simp [Event.isProvideData] at hall
      | parseInit seg => simp [Event.isProvideData] at hall
      | parseError code => simp [Event.isProvideData] at hall
      | finishParse => simp [Event.isProvideData] at hall
      | provideMediaData s tid =>
          have hnoop := didProvideMediaData_of_empty st s tid hempty
          simp only [run, step, hnoop]
          exact ih st hall.2 hempty

end FormatReaderModel

namespace FormatReaderModel

/-! ### Derived facts feeding the track-list claims -/

theorem buildTrackReaders_map_trackID (segment : InitializationSegment) :
    (buildTrackReaders segment).map (fun tr => tr.trackID)
      = (segment.videoTracks.filter (fun t => t.createSucceeds)).map (fun t => t.trackID)
        ++ (segment.audioTracks.filter (fun t => t.createSucceeds)).map (fun t => t.trackID)
        ++ (segment.textTracks.filter (fun t => t.createSucceeds)).map (fun t => t.trackID) := by
  simp only [buildTrackReaders, processTracks_map_trackID]
  simp [List.append_assoc]

/-- Per-track `(trackID, enabled)` flags of an enabling loop that fires on its
first element: the first descriptor is enabled, the rest are not. -/
def expectedFlagsFirst : List TrackInfo → List (Nat × Bool)
  | [] => []
  | t :: rest => (t.trackID, true) :: rest.map (fun r => (r.trackID, false))

/-- Per-track `(trackID, enabled)` flags of a loop that never enables. -/
def expectedFlagsNone (ts : List TrackInfo) : List (Nat × Bool) :=
  ts.map (fun r => (r.trackID, false))

theorem firstEnabled_map_flags (kind : TrackKind) (ts : List TrackInfo) :
    (firstEnabled kind ts).map (fun tr => (tr.trackID, tr.enabled)) = expectedFlagsFirst ts := by
  cases ts with
  | nil => rfl
  | cons t rest =>
      simp [firstEnabled, expectedFlagsFirst, mkEnabledReader, mkTrackReader, List.map_map]

theorem map_mkTrackReader_flags (kind : TrackKind) (ts : List TrackInfo) :
    (ts.map (mkTrackReader kind)).map (fun tr => (tr.trackID, tr.enabled))
      = expectedFlagsNone ts := by
  simp [expectedFlagsNone, mkTrackReader, List.map_map]

/-- State produced by a fresh generation (`startParse` with a successful
parser allocation followed by the initialization callback). -/
theorem run_start_then_init (st st2 : FormatReaderState) (bs : Nat)
    (seg : InitializationSegment)
    (hrun : run st [Event.startParse bs true, Event.parseInit seg] = Except.ok st2) :
    st2 = ⟨some bs, seg.duration, some noErr, buildTrackReaders seg⟩ := by
  simp only [run, step, parseByteSource, if_true, didParseTracks] at hrun
  simp only [ne_eq, not_true_eq_false, reduceIte, not_false_eq_true] at hrun
  simp only [run, Except.ok.injEq] at hrun
  exact hrun.symm

/-- C2: for a container whose parse the collaborator concludes with success
(and every `TrackReader` creation succeeds), the queryTracks entry point
returns the track list whose count and order are the concatenation of the
video, audio and text descriptors of the initialization segment, in segment
order. -/
theorem c2_tracks_concat (st st2 : FormatReaderState) (bs : Nat)
    (seg : InitializationSegment)
    (hcreate : (seg.videoTracks ++ seg.audioTracks ++ seg.textTracks).all
        (fun t => t.createSucceeds) = true)
    (hrun : run st [Event.startParse bs true, Event.parseInit seg] = Except.ok st2) :
    copyTrackArray st2
      = some (Except.ok ((seg.videoTracks ++ seg.audioTracks ++ seg.textTracks).map
          (fun t => t.trackID))) := by
  have hst2 := run_start_then_init st st2 bs seg hrun
  subst hst2
  simp only [List.all_append, Bool.and_eq_true] at hcreate
  obtain ⟨⟨hv, ha⟩, ht⟩ := hcreate
  simp only [copyTrackArray, ne_eq, not_true_eq_false, reduceIte]
  rw [buildTrackReaders_map_trackID, filter_all_eq _ _ hv, filter_all_eq _ _ ha,
    filter_all_eq _ _ ht]
  simp

/-- C2 witness: a segment with one video track (id 1) and one audio track
(id 2) yields the track list [1, 2]. -/
theorem c2_tracks_concat_witness :
    copyTrackArray ⟨some 9, some 12, some noErr,
        buildTrackReaders ⟨some 12, [⟨1, true⟩], [⟨2, true⟩], []⟩⟩
      = some (Except.ok [1, 2]) :=
  c2_tracks_concat initialState _ 9 ⟨some 12, [⟨1, true⟩], [⟨2, true⟩], []⟩ rfl rfl

/-- C3 counterexample: after a successful parse of a segment with one video
track (id 1) and one audio track (id 2), both channels have `enabled = true`,
so the enabled set is not a single track (the claim says only the first video
track would be enabled). -/
theorem c3_counterexample :
    (didParseTracks initialState ⟨some 7, [⟨1, true⟩], [⟨2, true⟩], []⟩ 0).map
        (fun st => (st.trackReaders.filter (fun tr => tr.enabled)).map (fun tr => tr.trackID))
      = Except.ok [1, 2] := by rfl

/-- C3 (amended): after a successful parse in which every track-reader
creation succeeds, the enabled channels are exactly the first video track
(when any video track exists) and, independently, the first audio track (when
any audio track exists); text tracks are never enabled, and a segment with
only text tracks enables no track. -/
theorem c3_enabled_flags_amended (st st2 : FormatReaderState) (bs : Nat)
    (seg : InitializationSegment)
    (hcreate : (seg.videoTracks ++ seg.audioTracks ++ seg.textTracks).all
        (fun t => t.createSucceeds) = true)
    (hrun : run st [Event.startParse bs true, Event.parseInit seg] = Except.ok st2) :
    st2.trackReaders.map (fun tr => (tr.trackID, tr.enabled))
      = expectedFlagsFirst seg.videoTracks ++ expectedFlagsFirst seg.audioTracks
        ++ expectedFlagsNone seg.textTracks := by
  have hst2 := run_start_then_init st st2 bs seg hrun
  subst hst2
  simp only [List.all_append, Bool.and_eq_true] at hcreate
  obtain ⟨⟨hv, ha⟩, ht⟩ := hcreate
  show (buildTrackReaders seg).map (fun tr => (tr.trackID, tr.enabled)) = _
  rw [buildTrackReaders_all_ok seg hv ha ht]
  simp only [List.map_append, firstEnabled_map_flags, map_mkTrackReader_flags]

/-- C3 witness: two video tracks, one audio track and one text track, all
creations succeeding: enabled flags are video 1 on, video 2 off, audio 3 on,
text 4 off. -/
theorem c3_enabled_flags_amended_witness :
    (FormatReaderState.trackReaders
        ⟨some 9, some 12, some noErr,
          buildTrackReaders ⟨some 12, [⟨1, true⟩, ⟨2, true⟩], [⟨3, true⟩], [⟨4, true⟩]⟩⟩).map
        (fun tr => (tr.trackID, tr.enabled))
      = [(1, true), (2, false), (3, true), (4, false)] :=
  c3_enabled_flags_amended initialState _ 9
    ⟨some 12, [⟨1, true⟩, ⟨2, true⟩], [⟨3, true⟩], [⟨4, true⟩]⟩ rfl rfl

end FormatReaderModel

namespace FormatReaderModel

/-- C1 counterexample: generation one concludes successfully with duration 7
and one video track; a second `startParse` whose parser allocation fails then
records an allocation-failure outcome WITHOUT resetting duration or tracks,
and a subsequent queryDuration call observes the set outcome together with
the duration (7) of the previous generation — contradicting the claim that no
reader ever observes a set outcome with leftover duration or tracks. -/
theorem c1_counterexample :
    run initialState [Event.startParse 1 true, Event.parseInit ⟨some 7, [⟨1, true⟩], [], []⟩,
        Event.startParse 2 false]
      = Except.ok ⟨some 1, some 7, some kMTPluginFormatReaderError_AllocationFailure,
          [⟨1, TrackKind.video, true, [], false⟩]⟩
      ∧ copyProperty ⟨some 1, some 7, some kMTPluginFormatReaderError_AllocationFailure,
          [⟨1, TrackKind.video, true, [], false⟩]⟩ PropertyKey.duration
        = some (Except.ok 7) :=
  ⟨rfl, rfl⟩

/-- C1 (amended): provided the parser allocation of the new generation
succeeds, the claim holds: the initialization callback fails its assertion
when the outcome is already set (so the transition happens at most once per
generation); `startParse` resets outcome, duration and tracks; the
initialization callback sets outcome, duration and the track list in one
critical section; and until that callback runs, sample deliveries leave the
freshly reset state completely unchanged, so no reader can observe a set
outcome with leftover data.  (When the parser allocation fails, the source
records an allocation-failure outcome without resetting, and the previous
generation duration stays observable — see the counterexample.) -/
theorem c1_generation_amended (st : FormatReaderState) (seg : InitializationSegment)
    (errorCode bs : Nat) (evs : List Event)
    (hconc : st.parseTracksStatus.isSome = true)
    (hquiet : evs.all Event.isProvideData = true) :
    didParseTracks st seg errorCode = Except.error AssertViolation.statusAlreadySet
      ∧ (parseByteSource st bs true).parseTracksStatus = none
      ∧ (parseByteSource st bs true).duration = none
      ∧ (parseByteSource st bs true).trackReaders = []
      ∧ didParseTracks (parseByteSource st bs true) seg errorCode
          = Except.ok ⟨some bs, seg.duration,
              some (if errorCode ≠ 0 then kMTPluginFormatReaderError_ParsingFailure else noErr),
              buildTrackReaders seg⟩
      ∧ run (parseByteSource st bs true) evs = Except.ok (parseByteSource st bs true) := by
  rcases Option.isSome_iff_exists.mp hconc with ⟨c, hc⟩
  refine ⟨?_, rfl, rfl, rfl, rfl, ?_⟩
  · unfold didParseTracks
    rw [hc]
    rfl
  · exact run_provide_only_of_empty evs (parseByteSource st bs true) hquiet rfl

/-- C1 witness: the amended theorem applied at a concrete concluded state, a
concrete segment and one stale sample delivery. -/
theorem c1_generation_amended_witness :
    didParseTracks ⟨none, some 5, some noErr, []⟩ ⟨some 7, [⟨1, true⟩], [], []⟩ 0
        = Except.error AssertViolation.statusAlreadySet
      ∧ run (parseByteSource ⟨none, some 5, some noErr, []⟩ 3 true)
            [Event.provideMediaData 9 4]
          = Except.ok (parseByteSource ⟨none, some 5, some noErr, []⟩ 3 true) :=
  ⟨(c1_generation_amended ⟨none, some 5, some noErr, []⟩ ⟨some 7, [⟨1, true⟩], [], []⟩ 0 3
      [Event.provideMediaData 9 4] rfl rfl).1,
    (c1_generation_amended ⟨none, some 5, some noErr, []⟩ ⟨some 7, [⟨1, true⟩], [], []⟩ 0 3
      [Event.provideMediaData 9 4] rfl rfl).2.2.2.2.2⟩

/-- C4: when the collaborator reports a non-zero error code before any
segment, every subsequent queryTracks call returns the parsing-failure code
with no track list, and every subsequent queryDuration call returns the
value-not-available error, for any following events that do not start a new
generation. -/
theorem c4_error_before_segment (st st1 st2 : FormatReaderState) (bs errorCode : Nat)
    (evs : List Event)
    (herr : errorCode ≠ 0)
    (h1 : step (parseByteSource st bs true) (Event.parseError errorCode) = Except.ok st1)
    (hq : evs.all (fun e => !e.isStartParse) = true)
    (h2 : run st1 evs = Except.ok st2) :
    copyTrackArray st2 = some (Except.error kMTPluginFormatReaderError_ParsingFailure)
      ∧ copyProperty st2 PropertyKey.duration
          = some (Except.error kCMBaseObjectError_ValueNotAvailable) := by
  have hst1 : st1 = ⟨some bs, none, some kMTPluginFormatReaderError_ParsingFailure, []⟩ := by
    simp only [step, didParseTracks, parseByteSource, if_true, emptySegment] at h1
    simp only [ne_eq, not_true_eq_false, reduceIte, not_false_eq_true, herr,
      Except.ok.injEq] at h1
    exact h1.symm
  subst hst1
  have hpres := run_preserves_concluded evs
    ⟨some bs, none, some kMTPluginFormatReaderError_ParsingFailure, []⟩ st2 hq rfl h2
  obtain ⟨hs, hd, _⟩ := hpres
  constructor
  · simp only [copyTrackArray, hs]
    norm_num [kMTPluginFormatReaderError_ParsingFailure, noErr]
  · simp only [copyProperty, hs, hd]
    rfl

/-- C4 witness: error code 5 before any segment, then one stale sample
delivery and the finish call; queryTracks yields ParsingFailure and
queryDuration yields ValueNotAvailable. -/
theorem c4_error_before_segment_witness :
    copyTrackArray ⟨some 4, none, some kMTPluginFormatReaderError_ParsingFailure, []⟩
        = some (Except.error kMTPluginFormatReaderError_ParsingFailure)
      ∧ copyProperty ⟨some 4, none, some kMTPluginFormatReaderError_ParsingFailure, []⟩
          PropertyKey.duration
        = some (Except.error kCMBaseObjectError_ValueNotAvailable) :=
  c4_error_before_segment initialState ⟨some 4, none,
      some kMTPluginFormatReaderError_ParsingFailure, []⟩
    ⟨some 4, none, some kMTPluginFormatReaderError_ParsingFailure, []⟩ 4 5
    [Event.provideMediaData 8 1, Event.finishParse] (by decide) rfl rfl rfl

/-- C5: a media-sample callback whose track id matches no existing channel is
a defined no-op: the state — every channel sample sequence and count, the
outcome, the duration and the track list — is unchanged, and the call cannot
fail. -/
theorem c5_unmatched_sample_noop (st : FormatReaderState) (sample trackID : Nat)
    (h : ∀ tr ∈ st.trackReaders, tr.trackID ≠ trackID) :
    didProvideMediaData st sample trackID = st := by
  unfold didProvideMediaData
  rw [findMatching_eq_none _ _ (fun tr htr => by simp [h tr htr])]

/-- C5 witness: a sample for track id 2 when the only channel has id 1. -/
theorem c5_unmatched_sample_noop_witness :
    didProvideMediaData
        ⟨some 9, some 12, some noErr, [⟨1, TrackKind.video, true, [(5, some 9)], false⟩]⟩ 7 2
      = ⟨some 9, some 12, some noErr, [⟨1, TrackKind.video, true, [(5, some 9)], false⟩]⟩ :=
  c5_unmatched_sample_noop
    ⟨some 9, some 12, some noErr, [⟨1, TrackKind.video, true, [(5, some 9)], false⟩]⟩ 7 2
    (by decide)

end FormatReaderModel

namespace FormatReaderModel

theorem copyProperty_ext (a b : FormatReaderState) (key : PropertyKey)
    (hs : a.parseTracksStatus = b.parseTracksStatus) (hd : a.duration = b.duration) :
    copyProperty a key = copyProperty b key := by
  unfold copyProperty
  rw [hs, hd]

theorem copyTrackArray_ext (a b : FormatReaderState)
    (hs : a.parseTracksStatus = b.parseTracksStatus)
    (hd : a.trackReaders.map (fun tr => tr.trackID)
        = b.trackReaders.map (fun tr => tr.trackID)) :
    copyTrackArray a = copyTrackArray b := by
  unfold copyTrackArray
  rw [hs, hd]

/-- C6: while the outcome is unset both query entry points block (result
`none`); and once the generation is concluded, any two query invocations —
reached through any interleavings of further non-generation events — observe
the same outcome, the same duration answer and the same track list: no caller
thread sees a different value for the same concluded generation. -/
theorem c6_query_agreement (stP st st1 st2 : FormatReaderState) (evs1 evs2 : List Event)
    (hpend : stP.parseTracksStatus = none)
    (hconc : st.parseTracksStatus.isSome = true)
    (hq1 : evs1.all (fun e => !e.isStartParse) = true)
    (hq2 : evs2.all (fun e => !e.isStartParse) = true)
    (h1 : run st evs1 = Except.ok st1)
    (h2 : run st evs2 = Except.ok st2) :
    copyTrackArray stP = none
      ∧ copyProperty stP PropertyKey.duration = none
      ∧ st1.parseTracksStatus = st2.parseTracksStatus
      ∧ copyProperty st1 PropertyKey.duration = copyProperty st2 PropertyKey.duration
      ∧ copyTrackArray st1 = copyTrackArray st2 := by
  have p1 := run_preserves_concluded evs1 st st1 hq1 hconc h1
  have p2 := run_preserves_concluded evs2 st st2 hq2 hconc h2
  refine ⟨?_, ?_, ?_, ?_, ?_⟩
  · unfold copyTrackArray
    rw [hpend]
  · unfold copyProperty
    rw [hpend]
  · exact p1.1.trans p2.1.symm
  · exact copyProperty_ext st1 st2 PropertyKey.duration (p1.1.trans p2.1.symm)
      (p1.2.1.trans p2.2.1.symm)
  · exact copyTrackArray_ext st1 st2 (p1.1.trans p2.1.symm)
      (p1.2.2.trans p2.2.2.symm)

/-- C6 witness: from a concluded one-track state, one caller path sees a
further sample delivery, the other the finish call; both observe the same
query answers, and both queries block on the unconcluded initial state. -/
theorem c6_query_agreement_witness :
    copyTrackArray initialState = none
      ∧ copyProperty initialState PropertyKey.duration = none
      ∧ FormatReaderState.parseTracksStatus
            ⟨some 9, some 12, some noErr, [⟨1, TrackKind.video, true, [(5, some 9)], false⟩]⟩
          = FormatReaderState.parseTracksStatus
            ⟨some 9, some 12, some noErr, [⟨1, TrackKind.video, true, [], true⟩]⟩
      ∧ copyProperty ⟨some 9, some 12, some noErr,
            [⟨1, TrackKind.video, true, [(5, some 9)], false⟩]⟩ PropertyKey.duration
          = copyProperty ⟨some 9, some 12, some noErr,
            [⟨1, TrackKind.video, true, [], true⟩]⟩ PropertyKey.duration
      ∧ copyTrackArray ⟨some 9, some 12, some noErr,
            [⟨1, TrackKind.video, true, [(5, some 9)], false⟩]⟩
          = copyTrackArray ⟨some 9, some 12, some noErr,
            [⟨1, TrackKind.video, true, [], true⟩]⟩ :=
  c6_query_agreement initialState
    ⟨some 9, some 12, some noErr, [⟨1, TrackKind.video, true, [], false⟩]⟩
    ⟨some 9, some 12, some noErr, [⟨1, TrackKind.video, true, [(5, some 9)], false⟩]⟩
    ⟨some 9, some 12, some noErr, [⟨1, TrackKind.video, true, [], true⟩]⟩
    [Event.provideMediaData 5 1] [Event.finishParse] rfl rfl (by decide) (by decide) rfl rfl

theorem map_finishOne_project (l : List TrackReader) :
    (l.map finishOne).map (fun tr => (tr.trackID, tr.kind, tr.enabled, tr.samples))
      = l.map (fun tr => (tr.trackID, tr.kind, tr.enabled, tr.samples)) := by
  induction l with
  | nil => rfl
  | cons tr rest ih => simp [finishOne, ih]

theorem map_finishOne_idem (l : List TrackReader) :
    (l.map finishOne).map finishOne = l.map finishOne := by
  induction l with
  | nil => rfl
  | cons tr rest ih => simp [finishOne, ih]

/-- C7: `finishParsing` changes neither the outcome, nor the duration, nor
the byte source, nor the identity, order, enabled flags and sample sequences
of the track list; and a second `finishParsing` in the same generation
returns the very same state, because the per-channel finished marking is
idempotent. -/
theorem c7_finish_frame_idempotent (st st2 : FormatReaderState)
    (hs : st.parseTracksStatus.isSome = true)
    (hr : finishParsing st = Except.ok st2) :
    st2.parseTracksStatus = st.parseTracksStatus
      ∧ st2.duration = st.duration
      ∧ st2.byteSource = st.byteSource
      ∧ st2.trackReaders.map (fun tr => (tr.trackID, tr.kind, tr.enabled, tr.samples))
          = st.trackReaders.map (fun tr => (tr.trackID, tr.kind, tr.enabled, tr.samples))
      ∧ finishParsing st2 = Except.ok st2 := by
  rcases Option.isSome_iff_exists.mp hs with ⟨c, hc⟩
  unfold finishParsing at hr
  rw [hc] at hr
  simp only [reduceCtorEq, reduceIte, Except.ok.injEq] at hr
  subst hr
  refine ⟨hc.symm, rfl, rfl, map_finishOne_project st.trackReaders, ?_⟩
  unfold finishParsing
  simp only [hc, reduceCtorEq, reduceIte, Except.ok.injEq]
  rw [map_finishOne_idem]

/-- C7 witness: finishing a concluded one-track state keeps the outcome,
duration and track data and is idempotent on the resulting state. -/
theorem c7_finish_frame_idempotent_witness :
    FormatReaderState.parseTracksStatus
          ⟨some 9, some 12, some noErr, [⟨1, TrackKind.video, true, [(5, some 9)], true⟩]⟩
        = FormatReaderState.parseTracksStatus
          ⟨some 9, some 12, some noErr, [⟨1, TrackKind.video, true, [(5, some 9)], false⟩]⟩
      ∧ FormatReaderState.duration
            ⟨some 9, some 12, some noErr, [⟨1, TrackKind.video, true, [(5, some 9)], true⟩]⟩
          = FormatReaderState.duration
            ⟨some 9, some 12, some noErr, [⟨1, TrackKind.video, true, [(5, some 9)], false⟩]⟩
      ∧ FormatReaderState.byteSource
            ⟨some 9, some 12, some noErr, [⟨1, TrackKind.video, true, [(5, some 9)], true⟩]⟩
          = FormatReaderState.byteSource
            ⟨some 9, some 12, some noErr, [⟨1, TrackKind.video, true, [(5, some 9)], false⟩]⟩
      ∧ (FormatReaderState.trackReaders
            ⟨some 9, some 12, some noErr, [⟨1, TrackKind.video, true, [(5, some 9)], true⟩]⟩).map
            (fun tr => (tr.trackID, tr.kind, tr.enabled, tr.samples))
          = (FormatReaderState.trackReaders
            ⟨some 9, some 12, some noErr, [⟨1, TrackKind.video, true, [(5, some 9)], false⟩]⟩).map
            (fun tr => (tr.trackID, tr.kind, tr.enabled, tr.samples))
      ∧ finishParsing
            ⟨some 9, some 12, some noErr, [⟨1, TrackKind.video, true, [(5, some 9)], true⟩]⟩
          = Except.ok
            ⟨some 9, some 12, some noErr, [⟨1, TrackKind.video, true, [(5, some 9)], true⟩]⟩ :=
  c7_finish_frame_idempotent
    ⟨some 9, some 12, some noErr, [⟨1, TrackKind.video, true, [(5, some 9)], false⟩]⟩
    ⟨some 9, some 12, some noErr, [⟨1, TrackKind.video, true, [(5, some 9)], true⟩]⟩ rfl rfl

/-- C8 counterexample: invoking `startOnMainThread` on the main (coordination)
thread violates its `ASSERT(!isMainThread())` — the claim says invocation
from the coordination thread is also permitted. -/
theorem c8_counterexample :
    startOnMainThread initialState true 3 true
      = Except.error AssertViolation.calledOnMainThread := rfl

/-- C8 (amended): `startParse` may be invoked from any thread OTHER than the
coordination thread (the source asserts it is not on the main thread); when
so invoked, it re-dispatches the state mutation (`parseByteSource`) to the
coordination thread before touching any state. -/
theorem c8_start_offthread_amended (st : FormatReaderState) (isMain : Bool)
    (bs : Nat) (allocOK : Bool) (h : isMain = false) :
    startOnMainThread st isMain bs allocOK
      = Except.ok (parseByteSource st bs allocOK) := by
  subst h
  rfl

/-- C8 witness: an off-thread invocation dispatches the reset mutation. -/
theorem c8_start_offthread_amended_witness :
    startOnMainThread initialState false 3 true
      = Except.ok ⟨some 3, none, none, []⟩ :=
  c8_start_offthread_amended initialState false 3 true rfl

/-- C9: for every property key other than the Duration key, `copyProperty`
returns the value-not-available error once the outcome is set, whether the
parse concluded in success or in failure. -/
theorem c9_non_duration_key (st : FormatReaderState) (raw : Nat)
    (hconc : st.parseTracksStatus.isSome = true) :
    copyProperty st (PropertyKey.other raw)
      = some (Except.error kCMBaseObjectError_ValueNotAvailable) := by
  rcases Option.isSome_iff_exists.mp hconc with ⟨c, hc⟩
  unfold copyProperty
  rw [hc]

/-- C9 witness: a non-Duration key on a successfully concluded state with a
valid duration still yields ValueNotAvailable. -/
theorem c9_non_duration_key_witness :
    copyProperty ⟨some 9, some 12, some noErr, []⟩ (PropertyKey.other 7)
      = some (Except.error kCMBaseObjectError_ValueNotAvailable) :=
  c9_non_duration_key ⟨some 9, some 12, some noErr, []⟩ 7 rfl

/-- C10: `finishParsing` has the unstated precondition that the outcome is
already set, enforced by `ASSERT(m_parseTracksStatus.hasValue())`: after a
fresh `startParse` with no collaborator callback, the state has an unset
outcome, and the finish step scheduled by the background worker violates that
assertion instead of completing as a no-op. -/
theorem c10_finish_asserts_outcome (st : FormatReaderState) (bs : Nat) :
    (parseByteSource st bs true).parseTracksStatus = none
      ∧ run (parseByteSource st bs true) [Event.finishParse]
          = Except.error AssertViolation.statusUnset :=
  ⟨rfl, rfl⟩

end FormatReaderModel
